import Mathlib

/-!
Shallow embedding of the oxforddictionaries.com API wrapper
(`src/oxforddict/oxfordwrapper.py` and `src/oxforddict/exceptions.py`).

Pure string manipulation is translated function-for-function.  The stateful
parts are made explicit: the client object is a structure, `setlang` returns
the updated client together with an optional raised error (the Python method
mutates `self` or raises), and the HTTPS connection is a function from a GET
request (url plus the two credential headers) to an HTTP response, so a
"stubbed transport" is just a constant function.  The Python standard
library pieces the wrapper calls (`str.strip`/`lower`/`replace`, `str.join`,
`bytes.decode("utf-8")`, `json.loads`) are modelled below by executable Lean
functions; the `json.loads` model covers the JSON grammar the wrapper can
receive except floating-point numbers, which have no exact embedding.
-/

/-- Python `str.isspace` on a single character (the Unicode whitespace
table used by `str.strip`). -/
def pyIsSpace (c : Char) : Bool :=
  let n := c.toNat
  (9 ≤ n && n ≤ 13) || n == 32 || (28 ≤ n && n ≤ 31) || n == 133 || n == 160 ||
  n == 5760 || (8192 ≤ n && n ≤ 8202) || n == 8232 || n == 8233 || n == 8239 ||
  n == 8287 || n == 12288

/-- Python `str.lower` on one character.  Only the ASCII case fold is
modelled; every place the wrapper calls `.lower()` the argument is compared
against (or consists of) pure-ASCII data, where the two agree. -/
def pyLowerChar (c : Char) : Char :=
  if 65 ≤ c.toNat ∧ c.toNat ≤ 90 then Char.ofNat (c.toNat + 32) else c

/-- Python `str.lower`. -/
def pyLower (s : String) : String := ⟨s.data.map pyLowerChar⟩

/-- Python `str.strip` (no argument): drop whitespace from both ends. -/
def stripL (l : List Char) : List Char :=
  ((l.dropWhile pyIsSpace).reverse.dropWhile pyIsSpace).reverse

/-- Python `str.replace(' ', '_')`, character by character (the pattern is a
single character, so `replace` is a per-character map). -/
def replChar (c : Char) : Char := if c = ' ' then '_' else c

/-- One hex digit, lowercase, as produced by Python `"{:x}".format`. -/
def hexDigit (n : Nat) : Char := Char.ofNat (if n < 10 then 48 + n else 87 + n)

/-- Python `"{:x}".format(i)` for `i < 256` (the only inputs that occur:
UTF-8 bytes): no leading zero is added. -/
def hexChars (n : Nat) : List Char :=
  if n < 16 then [hexDigit n] else [hexDigit (n / 16), hexDigit (n % 16)]

/-- UTF-8 encoding of one character (Python `x.encode("utf-8")`). -/
def utf8EncodeChar (c : Char) : List Nat :=
  let n := c.toNat
  if n < 128 then [n]
  else if n < 2048 then [192 + n / 64, 128 + n % 64]
  else if n < 65536 then [224 + n / 4096, 128 + n / 64 % 64, 128 + n % 64]
  else [240 + n / 262144, 128 + n / 4096 % 64, 128 + n / 64 % 64, 128 + n % 64]

/-- `''.join('%{:x}'.format(i) for i in x.encode('utf-8'))`. -/
def percentEncode : List Nat → List Char
  | [] => []
  | b :: bs => '%' :: (hexChars b ++ percentEncode bs)

/-- The body of the lambda in `_parseword`: a character strictly above
`'z'` (code point 122) is replaced by the percent-encoding of its UTF-8
bytes, any other character is kept. -/
def encodeCharPy (c : Char) : List Char :=
  if 122 < c.toNat then percentEncode (utf8EncodeChar c) else [c]

/-- `''.join(map(lambda x: ..., word))` from `_parseword`. -/
def encodeAll : List Char → List Char
  | [] => []
  | c :: cs => encodeCharPy c ++ encodeAll cs

/-- `OxfordDictionary._parseword` on the character list: percent-encode,
then `.strip().lower().replace(' ', '_')`. -/
def parsewordL (l : List Char) : List Char :=
  ((stripL (encodeAll l)).map pyLowerChar).map replChar

/-- `OxfordDictionary._parseword`. -/
def _parseword (w : String) : String := ⟨parsewordL w.data⟩

/-- Python `sep.join(list)`. -/
def pyJoin (sep : String) : List String → String
  | [] => ""
  | [x] => x
  | x :: xs => x ++ sep ++ pyJoin sep xs

/-! ### Model of `json.loads` (Python standard library)

`_request` ends with `json.loads(r.read().decode('utf-8'))`.  The decoder
below implements the JSON grammar (objects, arrays, strings with escapes,
integers, `true`/`false`/`null`) over a character list, with a fuel
argument for totality.  Floating-point literals are not modelled. -/

/-- A decoded JSON value, as returned by `json.loads`. -/
inductive Json where
  | null
  | bool (b : Bool)
  | num (n : Int)
  | str (s : String)
  | arr (elems : List Json)
  | obj (members : List (String × Json))

/-- The four whitespace characters JSON allows between tokens. -/
def jsonWs (c : Char) : Bool := c == ' ' || c == '\t' || c == '\n' || c == '\r'

def skipJsonWs (l : List Char) : List Char := l.dropWhile jsonWs

def quoteChar : Char := Char.ofNat 34

def backslashChar : Char := Char.ofNat 92

def lbraceChar : Char := Char.ofNat 123

def rbraceChar : Char := Char.ofNat 125

def isDigitChar (c : Char) : Bool := 48 ≤ c.toNat && c.toNat ≤ 57

def digitsToNat (ds : List Char) : Nat :=
  ds.foldl (fun a c => a * 10 + (c.toNat - 48)) 0

def hexVal (c : Char) : Option Nat :=
  if 48 ≤ c.toNat ∧ c.toNat ≤ 57 then some (c.toNat - 48)
  else if 97 ≤ c.toNat ∧ c.toNat ≤ 102 then some (c.toNat - 87)
  else if 65 ≤ c.toNat ∧ c.toNat ≤ 70 then some (c.toNat - 55)
  else none

/-- Single-character JSON string escapes. -/
def escChar (c : Char) : Option Char :=
  if c = quoteChar then some quoteChar
  else if c = backslashChar then some backslashChar
  else if c = '/' then some '/'
  else if c = 'b' then some (Char.ofNat 8)
  else if c = 'f' then some (Char.ofNat 12)
  else if c = 'n' then some (Char.ofNat 10)
  else if c = 'r' then some (Char.ofNat 13)
  else if c = 't' then some (Char.ofNat 9)
  else none

/-- Scan a JSON string body (the part after the opening quote), returning
its decoded characters and the input remaining after the closing quote. -/
def parseStrChars : List Char → Option (List Char × List Char)
  | [] => none
  | c :: rest =>
    if c = quoteChar then some ([], rest)
    else if c = backslashChar then
      match rest with
      | [] => none
      | e :: rest2 =>
        if e = 'u' then
          match rest2 with
          | a :: b :: c2 :: d :: rest3 =>
            match hexVal a, hexVal b, hexVal c2, hexVal d with
            | some x, some y, some z, some w =>
              match parseStrChars rest3 with
              | some (s, r) => some (Char.ofNat (4096 * x + 256 * y + 16 * z + w) :: s, r)
              | none => none
            | _, _, _, _ => none
          | _ => none
        else
          match escChar e with
          | some ce =>
            match parseStrChars rest2 with
            | some (s, r) => some (ce :: s, r)
            | none => none
          | none => none
    else
      match parseStrChars rest with
      | some (s, r) => some (c :: s, r)
      | none => none

mutual

/-- Parse one JSON value, returning it and the remaining input. -/
def parseValue : Nat → List Char → Except String (Json × List Char)
  | 0, _ => .error "out of fuel"
  | Nat.succ f, cs =>
    match skipJsonWs cs with
    | [] => .error "Expecting value"
    | c :: rest =>
      if c = lbraceChar then
        match skipJsonWs rest with
        | c2 :: rest2 =>
          if c2 = rbraceChar then .ok (.obj [], rest2)
          else
            match parseMembers f (c2 :: rest2) with
            | .ok (ms, r) => .ok (.obj ms, r)
            | .error e => .error e
        | [] => .error "Expecting property name"
      else if c = '[' then
        match skipJsonWs rest with
        | c2 :: rest2 =>
          if c2 = ']' then .ok (.arr [], rest2)
          else
            match parseElems f (c2 :: rest2) with
            | .ok (es, r) => .ok (.arr es, r)
            | .error e => .error e
        | [] => .error "Expecting value"
      else if c = quoteChar then
        match parseStrChars rest with
        | some (s, r) => .ok (.str ⟨s⟩, r)
        | none => .error "Unterminated string"
      else if c = 't' then
        match rest with
        | 'r' :: 'u' :: 'e' :: r => .ok (.bool true, r)
        | _ => .error "Expecting value"
      else if c = 'f' then
        match rest with
        | 'a' :: 'l' :: 's' :: 'e' :: r => .ok (.bool false, r)
        | _ => .error "Expecting value"
      else if c = 'n' then
        match rest with
        | 'u' :: 'l' :: 'l' :: r => .ok (.null, r)
        | _ => .error "Expecting value"
      else if c = '-' then
        match rest.takeWhile isDigitChar with
        | [] => .error "Expecting value"
        | ds => .ok (.num (-(Int.ofNat (digitsToNat ds))), rest.dropWhile isDigitChar)
      else if isDigitChar c then
        .ok (.num (Int.ofNat (digitsToNat (c :: rest.takeWhile isDigitChar))),
             rest.dropWhile isDigitChar)
      else .error "Expecting value"

/-- Parse the members of an object, positioned at the first member's key,
up to and including the closing brace. -/
def parseMembers : Nat → List Char → Except String (List (String × Json) × List Char)
  | 0, _ => .error "out of fuel"
  | Nat.succ f, cs =>
    match cs with
    | [] => .error "Expecting property name"
    | c :: rest =>
      if c = quoteChar then
        match parseStrChars rest with
        | none => .error "Unterminated string"
        | some (k, rest2) =>
          match skipJsonWs rest2 with
          | ':' :: rest3 =>
            match parseValue f rest3 with
            | .error e => .error e
            | .ok (v, rest4) =>
              match skipJsonWs rest4 with
              | ',' :: rest5 =>
                match parseMembers f (skipJsonWs rest5) with
                | .ok (ms, r) => .ok ((⟨k⟩, v) :: ms, r)
                | .error e => .error e
              | c5 :: rest5 =>
                if c5 = rbraceChar then .ok ([(⟨k⟩, v)], rest5)
                else .error "Expecting delimiter"
              | [] => .error "Expecting delimiter"
          | _ => .error "Expecting colon delimiter"
      else .error "Expecting property name"

/-- Parse the elements of an array, positioned at the first element, up to
and including the closing bracket. -/
def parseElems : Nat → List Char → Except String (List Json × List Char)
  | 0, _ => .error "out of fuel"
  | Nat.succ f, cs =>
    match parseValue f cs with
    | .error e => .error e
    | .ok (v, rest) =>
      match skipJsonWs rest with
      | ',' :: rest2 =>
        match parseElems f rest2 with
        | .ok (es, r) => .ok (v :: es, r)
        | .error e => .error e
      | c2 :: rest2 => if c2 = ']' then .ok ([v], rest2) else .error "Expecting delimiter"
      | [] => .error "Expecting delimiter"

end

/-- `json.loads` on a character list: parse one value, then require only
whitespace to remain.  The fuel bound over-approximates the number of
parser steps, each of which consumes input. -/
def jsonLoadsChars (cs : List Char) : Except String Json :=
  match parseValue (2 * cs.length + 2) cs with
  | .error e => .error e
  | .ok (v, rest) =>
    match skipJsonWs rest with
    | [] => .ok v
    | _ => .error "Extra data"

/-! ### Model of `bytes.decode("utf-8")` -/

/-- Strict UTF-8 decoding (rejecting overlong forms, surrogates and
out-of-range lead bytes, as Python's strict `decode('utf-8')` does), with a
fuel argument for totality; each step consumes at least one byte. -/
def utf8DecodeAux : Nat → List Nat → Option (List Char)
  | 0, _ => none
  | Nat.succ _, [] => some []
  | Nat.succ f, b :: bs =>
    if b < 128 then
      match utf8DecodeAux f bs with
      | some cs => some (Char.ofNat b :: cs)
      | none => none
    else if 194 ≤ b ∧ b ≤ 223 then
      match bs with
      | b2 :: bs2 =>
        if 128 ≤ b2 ∧ b2 ≤ 191 then
          match utf8DecodeAux f bs2 with
          | some cs => some (Char.ofNat ((b - 192) * 64 + (b2 - 128)) :: cs)
          | none => none
        else none
      | [] => none
    else if 224 ≤ b ∧ b ≤ 239 then
      match bs with
      | b2 :: b3 :: bs2 =>
        if (if b = 224 then 160 ≤ b2 ∧ b2 ≤ 191
            else if b = 237 then 128 ≤ b2 ∧ b2 ≤ 159
            else 128 ≤ b2 ∧ b2 ≤ 191) ∧ 128 ≤ b3 ∧ b3 ≤ 191 then
          match utf8DecodeAux f bs2 with
          | some cs =>
            some (Char.ofNat ((b - 224) * 4096 + (b2 - 128) * 64 + (b3 - 128)) :: cs)
          | none => none
        else none
      | _ => none
    else if 240 ≤ b ∧ b ≤ 244 then
      match bs with
      | b2 :: b3 :: b4 :: bs2 =>
        if (if b = 240 then 144 ≤ b2 ∧ b2 ≤ 191
            else if b = 244 then 128 ≤ b2 ∧ b2 ≤ 143
            else 128 ≤ b2 ∧ b2 ≤ 191) ∧ (128 ≤ b3 ∧ b3 ≤ 191) ∧ (128 ≤ b4 ∧ b4 ≤ 191) then
          match utf8DecodeAux f bs2 with
          | some cs =>
            some (Char.ofNat ((b - 240) * 262144 + (b2 - 128) * 4096 +
                              (b3 - 128) * 64 + (b4 - 128)) :: cs)
          | none => none
        else none
      | _ => none
    else none

def utf8Decode (bs : List Nat) : Option (List Char) := utf8DecodeAux (bs.length + 1) bs

/-- UTF-8 encoding of a whole string (used to build concrete response
bodies for stubbed transports). -/
def utf8EncodeStr (s : String) : List Nat :=
  (s.data.map utf8EncodeChar).foldr (fun a b => a ++ b) []

/-! ### Errors (`src/oxforddict/exceptions.py` plus the built-in Python
errors the wrapper can let escape) -/

/-- The raisable errors.  The first five are the classes of
`exceptions.py`, carrying the `(code, message)` arguments they are raised
with; the last three are built-in Python errors that can escape `_request`
or `search` (`AttributeError` from `bool(prefix).lower()`,
`UnicodeDecodeError` from `.decode('utf-8')`, `json.JSONDecodeError` from
`json.loads`). -/
inductive OxfordError where
  | badRequestException (status : Nat) (msg : String)
  | wordNotFoundException (status : Nat) (msg : String)
  | authenticationError (status : Nat) (msg : String)
  | serviceUnavailableError (status : Nat) (msg : String)
  | unsupportedLanguageException (code : Nat) (msg : String)
  | attributeError (msg : String)
  | unicodeDecodeError (msg : String)
  | jsonDecodeError (msg : String)
deriving DecidableEq

/-- Is the error one of the four HTTP-status-classified errors or the
local language error (the five classes of `exceptions.py`)? -/
def OxfordError.isClassified : OxfordError → Bool
  | .badRequestException _ _ => true
  | .wordNotFoundException _ _ => true
  | .authenticationError _ _ => true
  | .serviceUnavailableError _ _ => true
  | .unsupportedLanguageException _ _ => true
  | _ => false

def authErrorMsg : String := "The request failed due to invalid credentials."

def wordNotFoundMsg : String :=
  "No information available or the requested URL was not found on the server."

def badRequestMsg : String :=
  "The request was invalid or cannot be otherwise served. An accompanying error message will explain further."

def serverErrorMsg : String := "Error on server side"

def unsupportedLangMsg : String := "Current language is not supported"

/-! ### The client and `_request` -/

/-- An HTTP response as seen by `_request`: numeric status and raw body
bytes (`r.status`, `r.read()`). -/
structure HttpResponse where
  status : Nat
  body : List Nat

/-- One GET request as issued by `_request`: the composed URL and the two
credential headers. -/
structure GetRequest where
  url : String
  app_id : String
  app_key : String

/-- The connection: answers each GET request with an HTTP response. -/
abbrev Transport := GetRequest → HttpResponse

/-- The client object (`__slots__` of `OxfordDictionary`).  The connection
handle type is a parameter: operations need it to be `Transport`, while
state-only methods such as `setlang` work for any handle type — which also
makes it evident they never touch the network. -/
structure OxfordDictionary (Conn : Type) where
  app_key : String
  app_id : String
  lang : String
  _base_url : String
  _httpsconn : Conn

def base_url_v1 : String := "https://od-api.oxforddictionaries.com:443/api/v1"

/-- The tuple of supported language codes tested by `setlang`. -/
def supported_langs : List String :=
  ["en", "es", "ms", "sw", "tn", "nso", "lv", "id", "ur", "zu", "ro", "hi"]

/-- `OxfordDictionary.setlang`, in state-passing form: the Python method
either mutates `self.lang` and `self._base_url` and raises nothing, or
raises `UnsupportedLanguageException` leaving `self` untouched.  The result
is the client after the call together with the raised error, if any. -/
def OxfordDictionary.setlang {Conn : Type} (self : OxfordDictionary Conn) (lang : String) :
    OxfordDictionary Conn × Option OxfordError :=
  if pyLower lang ∈ supported_langs then
    ({ self with lang := lang, _base_url := base_url_v1 }, none)
  else
    (self, some (.unsupportedLanguageException 0 unsupportedLangMsg))

/-- The `json.loads(r.read().decode('utf-8'))` line of `_request`. -/
def jsonLoadsBody (body : List Nat) : Except OxfordError Json :=
  match utf8Decode body with
  | none => .error (.unicodeDecodeError "invalid utf-8")
  | some cs =>
    match jsonLoadsChars cs with
    | .error m => .error (.jsonDecodeError m)
    | .ok v => .ok v

/-- The status dispatch of `_request`: the `if r.status != 200` chain
followed by the final `return json.loads(...)`, which is reached both for
status 200 and for any non-200 status none of the branches match. -/
def handleResponse (r : HttpResponse) : Except OxfordError Json :=
  if r.status ≠ 200 then
    if r.status = 403 then .error (.authenticationError r.status authErrorMsg)
    else if r.status = 404 then .error (.wordNotFoundException r.status wordNotFoundMsg)
    else if r.status = 400 then .error (.badRequestException r.status badRequestMsg)
    else if 500 ≤ r.status ∧ r.status ≤ 504 then
      .error (.serviceUnavailableError r.status serverErrorMsg)
    else jsonLoadsBody r.body
  else jsonLoadsBody r.body

/-- The request a `_request(*args, category=..., arguments=..., set_lang=...)`
call composes: `'/'.join([self._base_url, category, set_lang, *args]) +
arguments`, with `set_lang` defaulting to `self.lang`. -/
structure RequestDescriptor where
  base_url : String
  category : String
  lang : String
  args : List String
  arguments : String

def RequestDescriptor.url (d : RequestDescriptor) : String :=
  pyJoin "/" ([d.base_url, d.category, d.lang] ++ d.args) ++ d.arguments

def OxfordDictionary._requestDescr {Conn : Type} (self : OxfordDictionary Conn)
    (args : List String) (category : String) (arguments : String)
    (set_lang : Option String) : RequestDescriptor :=
  { base_url := self._base_url, category := category,
    lang := set_lang.getD self.lang, args := args, arguments := arguments }

/-- Issue a composed request on the client's connection and classify the
response — the second half of `_request`. -/
def OxfordDictionary._runDescr (self : OxfordDictionary Transport)
    (d : RequestDescriptor) : Except OxfordError Json :=
  handleResponse (self._httpsconn
    { url := d.url, app_id := self.app_id, app_key := self.app_key })

/-- `OxfordDictionary._request`. -/
def OxfordDictionary._request (self : OxfordDictionary Transport) (args : List String)
    (category : String) (arguments : String) (set_lang : Option String) :
    Except OxfordError Json :=
  self._runDescr (self._requestDescr args category arguments set_lang)

/-! ### Operations -/

def OxfordDictionary.entriesDescr {Conn : Type} (self : OxfordDictionary Conn)
    (word : String) (args : List String) : RequestDescriptor :=
  self._requestDescr (_parseword word :: args) "entries" "" none

/-- `entries(word, *args)`. -/
def OxfordDictionary.entries (self : OxfordDictionary Transport) (word : String)
    (args : List String) : Except OxfordError Json :=
  self._runDescr (self.entriesDescr word args)

def OxfordDictionary.lemmatronDescr {Conn : Type} (self : OxfordDictionary Conn)
    (word : String) (filters : List String) : RequestDescriptor :=
  self._requestDescr (_parseword word :: filters) "inflections" "" none

/-- `lemmatron(word, *filters)`. -/
def OxfordDictionary.lemmatron (self : OxfordDictionary Transport) (word : String)
    (filters : List String) : Except OxfordError Json :=
  self._runDescr (self.lemmatronDescr word filters)

def OxfordDictionary.translationDescr {Conn : Type} (self : OxfordDictionary Conn)
    (word : String) (target_lang : String) : RequestDescriptor :=
  self._requestDescr [_parseword word, "translations=" ++ target_lang] "entries" "" none

/-- `translation(word, target_lang)`. -/
def OxfordDictionary.translation (self : OxfordDictionary Transport) (word : String)
    (target_lang : String) : Except OxfordError Json :=
  self._runDescr (self.translationDescr word target_lang)

def OxfordDictionary.wordlistDescr {Conn : Type} (self : OxfordDictionary Conn)
    (filters : List String) (advanced_params : List (String × String)) : RequestDescriptor :=
  self._requestDescr filters "wordlist"
    ("?" ++ pyJoin "&" (advanced_params.map (fun kv => kv.1 ++ "=" ++ kv.2))) none

/-- `wordlist(*filters, **advanced_params)`; keyword arguments are an
ordered association list, as a Python `dict` preserves insertion order. -/
def OxfordDictionary.wordlist (self : OxfordDictionary Transport) (filters : List String)
    (advanced_params : List (String × String)) : Except OxfordError Json :=
  self._runDescr (self.wordlistDescr filters advanced_params)

/-- The `if antonyms / elif synonyms / else` choice in `thesaurus`. -/
def thesaurusOp (antonyms synonyms : Bool) : String :=
  if antonyms then "antonyms"
  else if synonyms then "synonyms"
  else "antonyms;synonyms"

def OxfordDictionary.thesaurusDescr {Conn : Type} (self : OxfordDictionary Conn)
    (word : String) (antonyms synonyms : Bool) : RequestDescriptor :=
  self._requestDescr [_parseword word, thesaurusOp antonyms synonyms] "entries" "" none

/-- `thesaurus(word, antonyms=False, synonyms=False)`. -/
def OxfordDictionary.thesaurus (self : OxfordDictionary Transport) (word : String)
    (antonyms synonyms : Bool) : Except OxfordError Json :=
  self._runDescr (self.thesaurusDescr word antonyms synonyms)

/-- The query-string construction in `search`.  `pre` is the Python
`prefix` parameter.  When it is truthy the line
`"&prefix=%s" % bool(prefix).lower()` is evaluated, and `bool` has no
`lower` method, so an `AttributeError` is raised there, before any request;
otherwise each `&`-segment is appended exactly when its argument is truthy
(`regions`: a non-None, non-empty string; `limit`, `offset`: a non-zero
integer, `offset` possibly None). -/
def searchArguments (query : String) (pre : Bool) (regions : Option String)
    (limit : Int) (offset : Option Int) : Except OxfordError String :=
  if pre then .error (.attributeError "bool object has no attribute lower")
  else
    let a1 := "?q=" ++ _parseword query
    let a2 := a1 ++ (match regions with
      | some r => if r = "" then "" else "&regions=" ++ r
      | none => "")
    let a3 := a2 ++ (if limit = 0 then "" else "&limit=" ++ toString limit)
    let a4 := a3 ++ (match offset with
      | some n => if n = 0 then "" else "&offset=" ++ toString n
      | none => "")
    .ok a4

/-- `search(query, prefix=False, regions=None, limit=5000, offset=None)`. -/
def OxfordDictionary.search (self : OxfordDictionary Transport) (query : String)
    (pre : Bool) (regions : Option String) (limit : Int) (offset : Option Int) :
    Except OxfordError Json :=
  match searchArguments query pre regions limit offset with
  | .error e => .error e
  | .ok arguments => self._request [] "search" arguments none

def OxfordDictionary.sentencesDescr {Conn : Type} (self : OxfordDictionary Conn)
    (word : String) : RequestDescriptor :=
  self._requestDescr [_parseword word, "sentences"] "entries" "" none

/-- `sentences(word)`. -/
def OxfordDictionary.sentences (self : OxfordDictionary Transport) (word : String) :
    Except OxfordError Json :=
  self._runDescr (self.sentencesDescr word)

def OxfordDictionary.utility_languagesDescr {Conn : Type} (self : OxfordDictionary Conn) :
    RequestDescriptor :=
  self._requestDescr [] "languages" "" (some "")

/-- `utility_languages()`: the language path segment is forced empty. -/
def OxfordDictionary.utility_languages (self : OxfordDictionary Transport) :
    Except OxfordError Json :=
  self._runDescr self.utility_languagesDescr

/-! ### Helper lemmas on characters -/

theorem toNat_ofNat_lt {n : Nat} (h : n < 55296) : (Char.ofNat n).toNat = n := by
  have hv : n.isValidChar := Or.inl h
  simp [Char.ofNat, hv, Char.ofNatAux, Char.toNat, UInt32.toNat, BitVec.toNat_ofNatLt]

theorem char_toNat_lt (c : Char) : c.toNat < 1114112 := by
  rcases c with ⟨v, hv⟩
  rcases hv with h | ⟨_, h2⟩
  · exact Nat.lt_trans h (by decide)
  · exact h2

theorem pyIsSpace_iff {c : Char} :
    pyIsSpace c = true ↔
      (9 ≤ c.toNat ∧ c.toNat ≤ 13) ∨ c.toNat = 32 ∨ (28 ≤ c.toNat ∧ c.toNat ≤ 31) ∨
      c.toNat = 133 ∨ c.toNat = 160 ∨ c.toNat = 5760 ∨
      (8192 ≤ c.toNat ∧ c.toNat ≤ 8202) ∨ c.toNat = 8232 ∨ c.toNat = 8233 ∨
      c.toNat = 8239 ∨ c.toNat = 8287 ∨ c.toNat = 12288 := by
  simp [pyIsSpace, Bool.or_eq_true, Bool.and_eq_true, decide_eq_true_eq,
    Nat.beq_eq_true_eq, or_assoc]

theorem pyIsSpace_false_of_range {c : Char} (h1 : 33 ≤ c.toNat) (h2 : c.toNat ≤ 132) :
    pyIsSpace c = false := by
  rw [Bool.eq_false_iff]
  intro h
  rcases pyIsSpace_iff.mp h with h' | h' | h' | h' | h' | h' | h' | h' | h' | h' | h' | h' <;>
    omega

theorem pyLowerChar_toNat (c : Char) :
    (pyLowerChar c).toNat =
      if 65 ≤ c.toNat ∧ c.toNat ≤ 90 then c.toNat + 32 else c.toNat := by
  unfold pyLowerChar
  by_cases h : 65 ≤ c.toNat ∧ c.toNat ≤ 90
  · rw [if_pos h, if_pos h, toNat_ofNat_lt (by omega)]
  · rw [if_neg h, if_neg h]

theorem pyLowerChar_le122 {c : Char} (h : c.toNat ≤ 122) : (pyLowerChar c).toNat ≤ 122 := by
  rw [pyLowerChar_toNat]
  split <;> omega

theorem pyLowerChar_not_upper (c : Char) :
    ¬(65 ≤ (pyLowerChar c).toNat ∧ (pyLowerChar c).toNat ≤ 90) := by
  rw [pyLowerChar_toNat]
  split <;> omega

theorem pyLowerChar_not_space {c : Char} (h : pyIsSpace c = false) :
    pyIsSpace (pyLowerChar c) = false := by
  by_cases hu : 65 ≤ c.toNat ∧ c.toNat ≤ 90
  · apply pyIsSpace_false_of_range <;> rw [pyLowerChar_toNat, if_pos hu] <;> omega
  · unfold pyLowerChar
    rw [if_neg hu]
    exact h

theorem pyLowerChar_eq_self {c : Char} (h : ¬(65 ≤ c.toNat ∧ c.toNat ≤ 90)) :
    pyLowerChar c = c := by
  unfold pyLowerChar
  rw [if_neg h]

theorem replChar_toNat (c : Char) :
    (replChar c).toNat = if c = ' ' then 95 else c.toNat := by
  unfold replChar
  split <;> simp_all

theorem replChar_le122 {c : Char} (h : c.toNat ≤ 122) : (replChar c).toNat ≤ 122 := by
  rw [replChar_toNat]
  split <;> omega

theorem replChar_not_upper {c : Char} (h : ¬(65 ≤ c.toNat ∧ c.toNat ≤ 90)) :
    ¬(65 ≤ (replChar c).toNat ∧ (replChar c).toNat ≤ 90) := by
  rw [replChar_toNat]
  split <;> omega

theorem replChar_ne_space (c : Char) : replChar c ≠ ' ' := by
  unfold replChar
  split
  · decide
  · assumption

theorem replChar_not_space {c : Char} (h : pyIsSpace c = false) :
    pyIsSpace (replChar c) = false := by
  unfold replChar
  split
  · decide
  · exact h

theorem replChar_eq_self {c : Char} (h : c ≠ ' ') : replChar c = c := by
  unfold replChar
  rw [if_neg h]

/-! ### The characters produced by the percent encoder -/

theorem hexDigit_le122 {k : Nat} (h : k ≤ 35) : (hexDigit k).toNat ≤ 122 := by
  unfold hexDigit
  by_cases h10 : k < 10
  · rw [if_pos h10, toNat_ofNat_lt (by omega)]
    omega
  · rw [if_neg h10, toNat_ofNat_lt (by omega)]
    omega

theorem hexChars_le122 {n : Nat} (h : n < 256) : ∀ c ∈ hexChars n, c.toNat ≤ 122 := by
  intro c hc
  unfold hexChars at hc
  split at hc
  · simp only [List.mem_singleton] at hc
    subst hc
    exact hexDigit_le122 (by omega)
  · simp only [List.mem_cons, List.not_mem_nil, or_false] at hc
    rcases hc with h1 | h1 <;> subst h1
    · exact hexDigit_le122 (by omega)
    · exact hexDigit_le122 (by omega)

theorem percentEncode_le122 {bs : List Nat} (h : ∀ b ∈ bs, b < 256) :
    ∀ c ∈ percentEncode bs, c.toNat ≤ 122 := by
  induction bs with
  | nil => intro c hc; simp [percentEncode] at hc
  | cons b t ih =>
    intro c hc
    rcases List.mem_cons.mp hc with h1 | h1
    · subst h1
      decide
    · rcases List.mem_append.mp h1 with h2 | h2
      · exact hexChars_le122 (h b (by simp)) c h2
      · exact ih (fun x hx => h x (by simp [hx])) c h2

theorem utf8EncodeChar_lt256 (c : Char) : ∀ b ∈ utf8EncodeChar c, b < 256 := by
  intro b hb
  have hc : c.toNat < 1114112 := char_toNat_lt c
  by_cases h1 : c.toNat < 128
  · simp [utf8EncodeChar, h1] at hb
    omega
  · by_cases h2 : c.toNat < 2048
    · simp [utf8EncodeChar, h1, h2] at hb
      rcases hb with h | h <;> omega
    · by_cases h3 : c.toNat < 65536
      · simp [utf8EncodeChar, h1, h2, h3] at hb
        rcases hb with h | h | h <;> omega
      · simp [utf8EncodeChar, h1, h2, h3] at hb
        rcases hb with h | h | h | h <;> omega

theorem encodeCharPy_le122 (c : Char) : ∀ d ∈ encodeCharPy c, d.toNat ≤ 122 := by
  intro d hd
  unfold encodeCharPy at hd
  split at hd
  · exact percentEncode_le122 (utf8EncodeChar_lt256 c) d hd
  · simp only [List.mem_singleton] at hd
    subst hd
    omega

theorem encodeAll_le122 (l : List Char) : ∀ c ∈ encodeAll l, c.toNat ≤ 122 := by
  induction l with
  | nil => intro c hc; simp [encodeAll] at hc
  | cons x t ih =>
    intro c hc
    rcases List.mem_append.mp hc with h | h
    · exact encodeCharPy_le122 x c h
    · exact ih c h

theorem encodeCharPy_eq_single {c : Char} (h : c.toNat ≤ 122) : encodeCharPy c = [c] := by
  unfold encodeCharPy
  rw [if_neg (by omega)]

theorem encodeAll_eq_self {l : List Char} (h : ∀ c ∈ l, c.toNat ≤ 122) :
    encodeAll l = l := by
  induction l with
  | nil => rfl
  | cons x t ih =>
    show encodeCharPy x ++ encodeAll t = x :: t
    rw [encodeCharPy_eq_single (h x (by simp)), ih (fun c hc => h c (by simp [hc]))]
    rfl

/-! ### Stripping -/

/-- The head of the list, if any, is not whitespace. -/
def FrontClean (l : List Char) : Prop :=
  ∀ c, l.head? = some c → pyIsSpace c = false

theorem frontClean_nil : FrontClean [] := by
  intro c h
  simp at h

theorem frontClean_dropWhile (l : List Char) : FrontClean (l.dropWhile pyIsSpace) := by
  induction l with
  | nil => exact frontClean_nil
  | cons x t ih =>
    intro c h
    rw [List.dropWhile_cons] at h
    by_cases hx : pyIsSpace x = true
    · rw [if_pos hx] at h
      exact ih c h
    · rw [if_neg hx] at h
      simp only [List.head?_cons, Option.some.injEq] at h
      rw [← h]
      exact Bool.eq_false_iff.mpr hx

theorem dropWhile_eq_self_of_frontClean {l : List Char} (h : FrontClean l) :
    l.dropWhile pyIsSpace = l := by
  cases l with
  | nil => rfl
  | cons x t =>
    rw [List.dropWhile_cons, if_neg]
    rw [h x rfl]
    simp

theorem getLast?_dropWhile (p : Char → Bool) (m : List Char)
    (h : m.dropWhile p ≠ []) : (m.dropWhile p).getLast? = m.getLast? := by
  induction m with
  | nil => simp [List.dropWhile] at h
  | cons x t ih =>
    rw [List.dropWhile_cons] at h ⊢
    by_cases hx : p x = true
    · rw [if_pos hx] at h ⊢
      have ht : t ≠ [] := by
        intro ht0
        subst ht0
        simp [List.dropWhile] at h
      rw [ih h]
      cases t with
      | nil => exact absurd rfl ht
      | cons b l2 => exact (List.getLast?_cons_cons).symm
    · rw [if_neg hx]

theorem frontClean_stripL (l : List Char) : FrontClean (stripL l) := by
  unfold stripL
  intro c h
  by_cases hB : (l.dropWhile pyIsSpace).reverse.dropWhile pyIsSpace = []
  · rw [hB] at h
    simp at h
  · rw [List.head?_reverse, getLast?_dropWhile _ _ hB, List.getLast?_reverse] at h
    exact frontClean_dropWhile l c h

theorem backClean_stripL (l : List Char) : FrontClean (stripL l).reverse := by
  unfold stripL
  rw [List.reverse_reverse]
  exact frontClean_dropWhile _

theorem stripL_eq_self {l : List Char} (h1 : FrontClean l) (h2 : FrontClean l.reverse) :
    stripL l = l := by
  unfold stripL
  rw [dropWhile_eq_self_of_frontClean h1, dropWhile_eq_self_of_frontClean h2,
    List.reverse_reverse]

theorem mem_stripL {c : Char} {l : List Char} (h : c ∈ stripL l) : c ∈ l := by
  unfold stripL at h
  rw [List.mem_reverse] at h
  have h2 := (List.dropWhile_sublist (l := (l.dropWhile pyIsSpace).reverse) pyIsSpace).subset h
  rw [List.mem_reverse] at h2
  exact (List.dropWhile_sublist pyIsSpace).subset h2

theorem frontClean_map {l : List Char} (f : Char → Char)
    (hf : ∀ c, pyIsSpace c = false → pyIsSpace (f c) = false)
    (h : FrontClean l) : FrontClean (l.map f) := by
  cases l with
  | nil => exact frontClean_nil
  | cons x t =>
    intro c hc
    simp only [List.map_cons, List.head?_cons, Option.some.injEq] at hc
    rw [← hc]
    exact hf x (h x rfl)

/-! ### `_parseword` output characterization -/

theorem mem_parsewordL {c : Char} {l : List Char} (h : c ∈ parsewordL l) :
    ∃ c0 ∈ encodeAll l, c = replChar (pyLowerChar c0) := by
  unfold parsewordL at h
  rcases List.mem_map.mp h with ⟨c1, h1, h2⟩
  rcases List.mem_map.mp h1 with ⟨c0, h3, h4⟩
  exact ⟨c0, mem_stripL h3, by rw [← h2, ← h4]⟩

theorem parsewordL_le122 {c : Char} {l : List Char} (h : c ∈ parsewordL l) :
    c.toNat ≤ 122 := by
  rcases mem_parsewordL h with ⟨c0, h0, rfl⟩
  exact replChar_le122 (pyLowerChar_le122 (encodeAll_le122 l c0 h0))

theorem parsewordL_not_upper {c : Char} {l : List Char} (h : c ∈ parsewordL l) :
    ¬(65 ≤ c.toNat ∧ c.toNat ≤ 90) := by
  rcases mem_parsewordL h with ⟨c0, _, rfl⟩
  exact replChar_not_upper (pyLowerChar_not_upper _)

theorem parsewordL_ne_space {c : Char} {l : List Char} (h : c ∈ parsewordL l) :
    c ≠ ' ' := by
  rcases mem_parsewordL h with ⟨c0, _, rfl⟩
  exact replChar_ne_space _

theorem frontClean_parsewordL (l : List Char) : FrontClean (parsewordL l) := by
  unfold parsewordL
  apply frontClean_map _ (fun c h => replChar_not_space h)
  apply frontClean_map _ (fun c h => pyLowerChar_not_space h)
  exact frontClean_stripL _

theorem backClean_parsewordL (l : List Char) : FrontClean (parsewordL l).reverse := by
  unfold parsewordL
  rw [← List.map_reverse, ← List.map_reverse]
  apply frontClean_map _ (fun c h => replChar_not_space h)
  apply frontClean_map _ (fun c h => pyLowerChar_not_space h)
  exact backClean_stripL _

/-- The normalised word is a fixed point of every stage of `_parseword`:
its characters are plain ASCII (so the percent-encoding pass keeps them),
its ends are not whitespace (so `strip` keeps it), it has no upper-case
letter and no space (so `lower` and `replace` keep it). -/
theorem parsewordL_fixpoint (l : List Char) : parsewordL (parsewordL l) = parsewordL l := by
  have hfix1 : encodeAll (parsewordL l) = parsewordL l :=
    encodeAll_eq_self (fun c hc => parsewordL_le122 hc)
  have hfix2 : stripL (parsewordL l) = parsewordL l :=
    stripL_eq_self (frontClean_parsewordL l) (backClean_parsewordL l)
  have e1 : (parsewordL l).map pyLowerChar = parsewordL l :=
    (List.map_congr_left (fun c hc => pyLowerChar_eq_self (parsewordL_not_upper hc))).trans
      (List.map_id _)
  have e2 : (parsewordL l).map replChar = parsewordL l :=
    (List.map_congr_left (fun c hc => replChar_eq_self (parsewordL_ne_space hc))).trans
      (List.map_id _)
  show ((stripL (encodeAll (parsewordL l))).map pyLowerChar).map replChar = parsewordL l
  rw [hfix1, hfix2, e1, e2]

/-! ### Concrete objects for witnesses -/

/-- A concrete client whose connection handle is a bare `Nat`, for the
claims about `setlang` (which never uses the handle). -/
def natConnClient : OxfordDictionary Nat :=
  { app_key := "key", app_id := "appid", lang := "en", _base_url := base_url_v1,
    _httpsconn := 7 }

/-- A client over the constant transport answering every request with the
given status and body. -/
def stubClient (status : Nat) (body : List Nat) : OxfordDictionary Transport :=
  { app_key := "key", app_id := "appid", lang := "en", _base_url := base_url_v1,
    _httpsconn := fun _ => { status := status, body := body } }

/-! ### Claims -/

/-- Claim C4: word normalization is idempotent — applying `_parseword` to
its own output returns that output unchanged, for every input string. -/
theorem claim_C4_parseword_idempotent (w : String) :
    _parseword (_parseword w) = _parseword w := by
  show (⟨parsewordL (parsewordL w.data)⟩ : String) = ⟨parsewordL w.data⟩
  exact congrArg String.mk (parsewordL_fixpoint w.data)

/-- Claim C5: `_parseword` trims surrounding whitespace, lowercases,
replaces internal spaces by underscores, and percent-encodes non-ASCII
characters byte-by-byte in UTF-8 leaving ASCII letters untouched:
`"  Cat "` gives `"cat"`, `"Ice Cream"` gives `"ice_cream"`, and in
`"café"` the letter `é` becomes its percent-encoded UTF-8 byte pair
`%c3%a9` while the ASCII letters stay; the encoding stage maps every
ASCII letter to itself. -/
theorem claim_C5_parseword_examples :
    _parseword "  Cat " = "cat" ∧
    _parseword "Ice Cream" = "ice_cream" ∧
    _parseword "café" = "caf%c3%a9" ∧
    encodeCharPy 'é' = "%c3%a9".data ∧
    (∀ c : Char, (65 ≤ c.toNat ∧ c.toNat ≤ 90) ∨ (97 ≤ c.toNat ∧ c.toNat ≤ 122) →
      encodeCharPy c = [c]) := by
  refine ⟨rfl, rfl, rfl, rfl, fun c hc => encodeCharPy_eq_single ?_⟩
  rcases hc with h | h <;> omega

/-- Claim C5 witness: the universally quantified part of the claim at a
concrete character. -/
theorem claim_C5_witness :
    ((65 ≤ 'Q'.toNat ∧ 'Q'.toNat ≤ 90) ∨ (97 ≤ 'Q'.toNat ∧ 'Q'.toNat ≤ 122)) ∧
    encodeCharPy 'Q' = ['Q'] :=
  ⟨Or.inl (by decide), claim_C5_parseword_examples.2.2.2.2 'Q' (Or.inl (by decide))⟩

/-- Claim C3 counterexample: `setlang "EN"` succeeds (raises nothing) but
the stored language code is `"EN"` as passed, not the lowercase `"en"`
the claim requires. -/
theorem claim_C3_counterexample :
    (natConnClient.setlang "EN").2 = none ∧ (natConnClient.setlang "EN").1.lang ≠ "en" := by
  exact ⟨rfl, by decide⟩

/-- Claim C3 (amended): for every lowercase, uppercase, or mixed-case
variant of a supported language code `setlang` succeeds, and the language
code stored in the client afterwards is the input exactly as passed —
only the membership test lowercases; storage is not normalized. -/
theorem claim_C3_setlang_case_variants {Conn : Type} (self : OxfordDictionary Conn)
    (lang : String) (h : pyLower lang ∈ supported_langs) :
    (self.setlang lang).2 = none ∧ (self.setlang lang).1.lang = lang := by
  unfold OxfordDictionary.setlang
  rw [if_pos h]
  exact ⟨rfl, rfl⟩

/-- Claim C3 witness: the amended claim at the mixed-case input `"eN"`. -/
theorem claim_C3_witness :
    pyLower "eN" ∈ supported_langs ∧
    ((natConnClient.setlang "eN").2 = none ∧ (natConnClient.setlang "eN").1.lang = "eN") :=
  ⟨by decide, claim_C3_setlang_case_variants natConnClient "eN" (by decide)⟩

/-- Claim C8: for every string whose lowercase form is not a supported
code, `setlang` raises `UnsupportedLanguageException` and returns the
client unchanged (language and base URL included).  The check is local:
`setlang` is defined for an arbitrary connection-handle type with no
transport structure, so no network request can be involved. -/
theorem claim_C8_unsupported_language {Conn : Type} (self : OxfordDictionary Conn)
    (lang : String) (h : pyLower lang ∉ supported_langs) :
    self.setlang lang = (self, some (.unsupportedLanguageException 0 unsupportedLangMsg)) := by
  unfold OxfordDictionary.setlang
  rw [if_neg h]

/-- Claim C8 witness: the unsupported code `"xx"` on a concrete client. -/
theorem claim_C8_witness :
    pyLower "xx" ∉ supported_langs ∧
    natConnClient.setlang "xx" =
      (natConnClient, some (.unsupportedLanguageException 0 unsupportedLangMsg)) :=
  ⟨by decide, claim_C8_unsupported_language natConnClient "xx" (by decide)⟩

/-- Claim C9: a successful `setlang` call changes only the language field
and re-assigns the base URL to the same fixed value; the API key, API id
and the connection handle are unchanged — the handle is returned
identical (for an arbitrary handle type), so the connection is neither
closed nor reopened. -/
theorem claim_C9_setlang_frame {Conn : Type} (self : OxfordDictionary Conn) (lang : String)
    (h : (self.setlang lang).2 = none) :
    (self.setlang lang).1.app_key = self.app_key ∧
    (self.setlang lang).1.app_id = self.app_id ∧
    (self.setlang lang).1._httpsconn = self._httpsconn ∧
    (self.setlang lang).1.lang = lang ∧
    (self.setlang lang).1._base_url = base_url_v1 := by
  unfold OxfordDictionary.setlang at h ⊢
  by_cases hc : pyLower lang ∈ supported_langs
  · rw [if_pos hc]
    exact ⟨rfl, rfl, rfl, rfl, rfl⟩
  · rw [if_neg hc] at h
    simp at h

/-- Claim C9 witness: a successful `setlang "es"` on a concrete client. -/
theorem claim_C9_witness :
    (natConnClient.setlang "es").2 = none ∧
    ((natConnClient.setlang "es").1.app_key = natConnClient.app_key ∧
     (natConnClient.setlang "es").1.app_id = natConnClient.app_id ∧
     (natConnClient.setlang "es").1._httpsconn = natConnClient._httpsconn ∧
     (natConnClient.setlang "es").1.lang = "es" ∧
     (natConnClient.setlang "es").1._base_url = base_url_v1) :=
  ⟨rfl, claim_C9_setlang_frame natConnClient "es" rfl⟩

/-- Claim C7: `thesaurus` issues a request with category `"entries"` whose
URL ends in the single path segment `antonyms;synonyms` when both flags are
false, `antonyms` when `antonyms` is true, and `synonyms` when only
`synonyms` is true (the segment contains no `/`). -/
theorem claim_C7_thesaurus_segment {Conn : Type} (self : OxfordDictionary Conn)
    (word : String) (antonyms synonyms : Bool) :
    (self.thesaurusDescr word antonyms synonyms).category = "entries" ∧
    (∃ p, (self.thesaurusDescr word antonyms synonyms).url =
      p ++ ("/" ++ thesaurusOp antonyms synonyms)) ∧
    thesaurusOp false false = "antonyms;synonyms" ∧
    (∀ s2 : Bool, thesaurusOp true s2 = "antonyms") ∧
    thesaurusOp false true = "synonyms" ∧
    '/' ∉ (thesaurusOp antonyms synonyms).data := by
  refine ⟨rfl,
    ⟨self._base_url ++ "/" ++ "entries" ++ "/" ++ self.lang ++ "/" ++ _parseword word, ?_⟩,
    rfl, fun s2 => rfl, rfl, ?_⟩
  · show pyJoin "/" ([self._base_url, "entries", self.lang] ++
        [_parseword word, thesaurusOp antonyms synonyms]) ++ "" = _
    simp only [pyJoin, String.append_assoc, String.append_empty, List.cons_append,
      List.nil_append]
  · cases antonyms <;> cases synonyms <;> decide

/-- Claim C6: `search` builds `?q=` followed by the normalized query and
appends the `&regions=`, `&limit=`, `&offset=` segments each exactly when
the corresponding argument is truthy (and the `&prefix=` segment never
reaches the query string: a truthy `prefix` raises before it is built);
in particular `search("cat", limit=10)` produces exactly
`?q=cat&limit=10`, containing no `prefix=`, `regions=` or `offset=`. -/
theorem claim_C6_search_query_string :
    searchArguments "cat" false none 10 none = .ok "?q=cat&limit=10" ∧
    ¬ ("prefix=".data <:+: "?q=cat&limit=10".data) ∧
    ¬ ("regions=".data <:+: "?q=cat&limit=10".data) ∧
    ¬ ("offset=".data <:+: "?q=cat&limit=10".data) ∧
    (∀ (q : String) (r : Option String) (lim : Int) (off : Option Int),
      searchArguments q false r lim off =
        .ok ("?q=" ++ _parseword q ++
          (match r with
           | some s2 => if s2 = "" then "" else "&regions=" ++ s2
           | none => "") ++
          (if lim = 0 then "" else "&limit=" ++ toString lim) ++
          (match off with
           | some n => if n = 0 then "" else "&offset=" ++ toString n
           | none => ""))) := by
  refine ⟨rfl, by decide, by decide, by decide, fun q r lim off => ?_⟩
  cases r <;> cases off <;> rfl

/-- Claim C1: every operation, run against a stubbed transport answering
with status 400, 403, 404 or 500–504, raises (returns) the matching
error — BadRequest, Authentication, WordNotFound, ServiceUnavailable —
and the error is the same for every body, i.e. it is produced before the
body is read or parsed. -/
theorem claim_C1_http_error_mapping (self : OxfordDictionary Transport)
    (status : Nat) (body : List Nat) (word tgt q : String)
    (fs : List String) (kvs : List (String × String)) (a s2 : Bool)
    (r : Option String) (lim : Int) (off : Option Int)
    (hconn : self._httpsconn = fun _ => { status := status, body := body })
    (hs : status = 400 ∨ status = 403 ∨ status = 404 ∨ (500 ≤ status ∧ status ≤ 504)) :
    ∃ e : OxfordError,
      (status = 400 → e = .badRequestException 400 badRequestMsg) ∧
      (status = 403 → e = .authenticationError 403 authErrorMsg) ∧
      (status = 404 → e = .wordNotFoundException 404 wordNotFoundMsg) ∧
      (500 ≤ status → status ≤ 504 → e = .serviceUnavailableError status serverErrorMsg) ∧
      self.entries word fs = .error e ∧
      self.lemmatron word fs = .error e ∧
      self.translation word tgt = .error e ∧
      self.wordlist fs kvs = .error e ∧
      self.thesaurus word a s2 = .error e ∧
      self.search q false r lim off = .error e ∧
      self.sentences word = .error e ∧
      self.utility_languages = .error e := by
  have hrun : ∀ d : RequestDescriptor,
      self._runDescr d = handleResponse { status := status, body := body } := by
    intro d
    unfold OxfordDictionary._runDescr
    rw [hconn]
  rcases hs with h | h | h | h
  · subst h
    refine ⟨.badRequestException 400 badRequestMsg,
      fun _ => rfl, fun h2 => by omega, fun h2 => by omega, fun h2 h3 => by omega,
      ?_, ?_, ?_, ?_, ?_, ?_, ?_, ?_⟩ <;> exact (hrun _).trans (by rfl)
  · subst h
    refine ⟨.authenticationError 403 authErrorMsg,
      fun h2 => by omega, fun _ => rfl, fun h2 => by omega, fun h2 h3 => by omega,
      ?_, ?_, ?_, ?_, ?_, ?_, ?_, ?_⟩ <;> exact (hrun _).trans (by rfl)
  · subst h
    refine ⟨.wordNotFoundException 404 wordNotFoundMsg,
      fun h2 => by omega, fun h2 => by omega, fun _ => rfl, fun h2 h3 => by omega,
      ?_, ?_, ?_, ?_, ?_, ?_, ?_, ?_⟩ <;> exact (hrun _).trans (by rfl)
  · have hh : handleResponse { status := status, body := body } =
        .error (.serviceUnavailableError status serverErrorMsg) := by
      unfold handleResponse
      rw [if_pos (show status ≠ 200 by omega)]
      rw [if_neg (show ¬status = 403 by omega)]
      rw [if_neg (show ¬status = 404 by omega)]
      rw [if_neg (show ¬status = 400 by omega)]
      rw [if_pos h]
    refine ⟨.serviceUnavailableError status serverErrorMsg,
      fun h2 => by omega, fun h2 => by omega, fun h2 => by omega, fun _ _ => rfl,
      ?_, ?_, ?_, ?_, ?_, ?_, ?_, ?_⟩ <;> exact (hrun _).trans hh

/-- Claim C1 witness: every operation on a client whose stubbed transport
answers 404 with a body that is not even valid UTF-8. -/
theorem claim_C1_witness :
    ∃ e : OxfordError,
      ((404 : Nat) = 400 → e = .badRequestException 400 badRequestMsg) ∧
      ((404 : Nat) = 403 → e = .authenticationError 403 authErrorMsg) ∧
      ((404 : Nat) = 404 → e = .wordNotFoundException 404 wordNotFoundMsg) ∧
      (500 ≤ (404 : Nat) → (404 : Nat) ≤ 504 →
        e = .serviceUnavailableError 404 serverErrorMsg) ∧
      (stubClient 404 [255]).entries "cat" [] = .error e ∧
      (stubClient 404 [255]).lemmatron "cat" [] = .error e ∧
      (stubClient 404 [255]).translation "cat" "es" = .error e ∧
      (stubClient 404 [255]).wordlist [] [] = .error e ∧
      (stubClient 404 [255]).thesaurus "cat" false false = .error e ∧
      (stubClient 404 [255]).search "dog" false none 0 none = .error e ∧
      (stubClient 404 [255]).sentences "cat" = .error e ∧
      (stubClient 404 [255]).utility_languages = .error e :=
  claim_C1_http_error_mapping (stubClient 404 [255]) 404 [255] "cat" "es" "dog" [] []
    false false none 0 none rfl (Or.inr (Or.inr (Or.inl rfl)))

/-- Claim C2: with a transport answering status 200, every operation
returns the response body decoded as UTF-8 JSON, unchanged; and decoding
the body consisting of the UTF-8 bytes of the object with the single
member id ↦ cat yields exactly that one-entry mapping. -/
theorem claim_C2_success_returns_decoded_json (self : OxfordDictionary Transport)
    (body : List Nat) (word tgt q : String) (fs : List String)
    (kvs : List (String × String)) (a s2 : Bool) (r : Option String)
    (lim : Int) (off : Option Int)
    (hconn : self._httpsconn = fun _ => { status := 200, body := body }) :
    (self.entries word fs = jsonLoadsBody body ∧
     self.lemmatron word fs = jsonLoadsBody body ∧
     self.translation word tgt = jsonLoadsBody body ∧
     self.wordlist fs kvs = jsonLoadsBody body ∧
     self.thesaurus word a s2 = jsonLoadsBody body ∧
     self.search q false r lim off = jsonLoadsBody body ∧
     self.sentences word = jsonLoadsBody body ∧
     self.utility_languages = jsonLoadsBody body) ∧
    jsonLoadsBody (utf8EncodeStr "\x7b\"id\":\"cat\"\x7d") =
      .ok (.obj [("id", .str "cat")]) := by
  have hrun : ∀ d : RequestDescriptor, self._runDescr d = jsonLoadsBody body := by
    intro d
    unfold OxfordDictionary._runDescr
    rw [hconn]
    rfl
  exact ⟨⟨hrun _, hrun _, hrun _, hrun _, hrun _, hrun _, hrun _, hrun _⟩, rfl⟩

/-- Claim C2 witness: a stub answering 200 with the UTF-8 bytes of the
object id ↦ cat; every operation returns the decoded mapping. -/
theorem claim_C2_witness :
    ((stubClient 200 (utf8EncodeStr "\x7b\"id\":\"cat\"\x7d")).entries "cat" [] =
        jsonLoadsBody (utf8EncodeStr "\x7b\"id\":\"cat\"\x7d") ∧
     (stubClient 200 (utf8EncodeStr "\x7b\"id\":\"cat\"\x7d")).lemmatron "cat" [] =
        jsonLoadsBody (utf8EncodeStr "\x7b\"id\":\"cat\"\x7d") ∧
     (stubClient 200 (utf8EncodeStr "\x7b\"id\":\"cat\"\x7d")).translation "cat" "es" =
        jsonLoadsBody (utf8EncodeStr "\x7b\"id\":\"cat\"\x7d") ∧
     (stubClient 200 (utf8EncodeStr "\x7b\"id\":\"cat\"\x7d")).wordlist [] [] =
        jsonLoadsBody (utf8EncodeStr "\x7b\"id\":\"cat\"\x7d") ∧
     (stubClient 200 (utf8EncodeStr "\x7b\"id\":\"cat\"\x7d")).thesaurus "cat" false false =
        jsonLoadsBody (utf8EncodeStr "\x7b\"id\":\"cat\"\x7d") ∧
     (stubClient 200 (utf8EncodeStr "\x7b\"id\":\"cat\"\x7d")).search "dog" false none 0 none =
        jsonLoadsBody (utf8EncodeStr "\x7b\"id\":\"cat\"\x7d") ∧
     (stubClient 200 (utf8EncodeStr "\x7b\"id\":\"cat\"\x7d")).sentences "cat" =
        jsonLoadsBody (utf8EncodeStr "\x7b\"id\":\"cat\"\x7d") ∧
     (stubClient 200 (utf8EncodeStr "\x7b\"id\":\"cat\"\x7d")).utility_languages =
        jsonLoadsBody (utf8EncodeStr "\x7b\"id\":\"cat\"\x7d")) ∧
    jsonLoadsBody (utf8EncodeStr "\x7b\"id\":\"cat\"\x7d") =
      .ok (.obj [("id", .str "cat")]) :=
  claim_C2_success_returns_decoded_json
    (stubClient 200 (utf8EncodeStr "\x7b\"id\":\"cat\"\x7d"))
    (utf8EncodeStr "\x7b\"id\":\"cat\"\x7d") "cat" "es" "dog" [] [] false false
    none 0 none rfl

/-- Claim C10: for a response status that is neither 200 nor one of the
mapped codes (400, 403, 404, 500–504) — e.g. 401 or 429 — `_request`
raises none of the five classified errors: it reads the body and returns
it JSON-decoded, exactly as in the 200 success case. -/
theorem claim_C10_unmapped_status_decodes (self : OxfordDictionary Transport)
    (status : Nat) (body : List Nat) (args2 : List String)
    (category arguments : String) (set_lang : Option String)
    (hconn : self._httpsconn = fun _ => { status := status, body := body })
    (h200 : status ≠ 200) (h400 : status ≠ 400) (h403 : status ≠ 403)
    (h404 : status ≠ 404) (h5 : ¬(500 ≤ status ∧ status ≤ 504)) :
    handleResponse { status := status, body := body } =
      handleResponse { status := 200, body := body } ∧
    handleResponse { status := status, body := body } = jsonLoadsBody body ∧
    (∀ e, handleResponse { status := status, body := body } = .error e →
      e.isClassified = false) ∧
    self._request args2 category arguments set_lang = jsonLoadsBody body := by
  have hh : handleResponse { status := status, body := body } = jsonLoadsBody body := by
    unfold handleResponse
    rw [if_pos h200, if_neg h403, if_neg h404, if_neg h400, if_neg h5]
  have hcls : ∀ e, jsonLoadsBody body = .error e → e.isClassified = false := by
    intro e he
    unfold jsonLoadsBody at he
    cases hu : utf8Decode body with
    | none =>
      simp only [hu] at he
      cases he
      rfl
    | some cs =>
      simp only [hu] at he
      cases hj : jsonLoadsChars cs with
      | error m =>
        simp only [hj] at he
        cases he
        rfl
      | ok v =>
        simp only [hj] at he
        cases he
  refine ⟨hh.trans (by rfl), hh, fun e he => hcls e (hh ▸ he), ?_⟩
  show self._runDescr _ = _
  unfold OxfordDictionary._runDescr
  rw [hconn]
  exact hh

/-- Claim C10 witness: status 401 (unmapped) with an empty body behaves
exactly like the 200 case. -/
theorem claim_C10_witness :
    (handleResponse { status := 401, body := ([] : List Nat) } =
      handleResponse { status := 200, body := ([] : List Nat) } ∧
    handleResponse { status := 401, body := ([] : List Nat) } = jsonLoadsBody [] ∧
    (∀ e, handleResponse { status := 401, body := ([] : List Nat) } = .error e →
      e.isClassified = false) ∧
    (stubClient 401 [])._request [] "entries" "" none = jsonLoadsBody []) :=
  claim_C10_unmapped_status_decodes (stubClient 401 []) 401 [] [] "entries" "" none rfl
    (by omega) (by omega) (by omega) (by omega) (by omega)
